import Mathlib

/-!
Verification of the `midnight-local-network` wallet utility.

The development shallowly embeds the three source files:
* `src/config.ts`   — the two endpoint configurations and their
  `setNetworkId` constructor side effect (modelled as an event trace);
* `src/commons.ts`  — the `TestWallet` lifecycle helper: `waitForFunds`
  (an rxjs pipeline `throttleTime(10_000) → tap(log) → filter(synced) →
  map(balance) → filter(positive)` consumed with `firstValueFrom`),
  `buildWalletAndWaitForFunds`, `buildFreshWallet`, `buildWalletFromSeed`
  and `setup`;
* the CLI entry point — argument parsing, configuration selection,
  fresh-wallet creation, banner printing and the close/cleanup step.

Effectful SDK calls are abstracted as function parameters
(`Config → String → Except String WalletState` for "build + start +
first state snapshot"), the wallet state stream as a finite list of
(arrival time in ms, snapshot) pairs, and every observable action
(console output, structured log lines, `setNetworkId`, the
`WalletBuilder.buildFromSeed` call, `wallet.start()`, the close attempt)
as an event in an explicit trace.
-/

namespace MidnightLocal

/-- The SDK's `NetworkId` enumeration (`@midnight-ntwrk/midnight-js-network-id`). -/
inductive NetworkId
  | Undeployed
  | DevNet
  | TestNet
  | MainNet
deriving DecidableEq, Repr

/-- `Config` interface from `src/config.ts`: four endpoint strings. -/
structure Config where
  indexer : String
  indexerWS : String
  node : String
  proofServer : String
deriving DecidableEq, Repr

/-- `syncProgress.lag` of a wallet state snapshot. -/
structure SyncLag where
  applyGap : Nat
  sourceGap : Nat
deriving DecidableEq, Repr

/-- Optional `syncProgress` field of a wallet state snapshot. -/
structure SyncProgress where
  lag : SyncLag
  synced : Bool
deriving DecidableEq, Repr

/-- A wallet state snapshot as consumed by `commons.ts`: address, the
balances record (an association list keyed by token identifier, amounts
are unsigned), the optional sync progress, and the length of
`transactionHistory`. -/
structure WalletState where
  address : String
  balances : List (String × Nat)
  syncProgress : Option SyncProgress
  transactionHistoryLength : Nat
deriving DecidableEq, Repr

/-- The canonical native-token identifier returned by `nativeToken()` of
`@midnight-ntwrk/ledger`; its concrete value is opaque to this repository,
only its identity is used as a key of the balances record. -/
def nativeToken : String := "native"

/-- Lookup of `state.balances[tok]` (a record access that may be absent). -/
def lookupBalance (s : WalletState) (tok : String) : Option Nat :=
  (s.balances.find? (fun kv => kv.1 == tok)).map Prod.snd

/-- `state.balances[nativeToken()] ?? 0n`. -/
def nativeBalance (s : WalletState) : Nat :=
  (lookupBalance s nativeToken).getD 0

/-- `state.syncProgress?.synced === true`. -/
def syncedFlag (s : WalletState) : Bool :=
  match s.syncProgress with
  | some p => p.synced
  | none => false

/-- Data logged by the `Rx.tap` stage of `waitForFunds` for every evaluated
snapshot: `sourceGap` and `applyGap` (each `?? 0n`) and the transaction
count. -/
structure FundsLogEntry where
  sourceGap : Nat
  applyGap : Nat
  transactions : Nat
deriving DecidableEq, Repr

/-- The `Rx.tap` observation of one snapshot: gaps default to zero when
`syncProgress` is absent. -/
def logOf (s : WalletState) : FundsLogEntry :=
  { sourceGap := (s.syncProgress.map (fun p => p.lag.sourceGap)).getD 0
    applyGap := (s.syncProgress.map (fun p => p.lag.applyGap)).getD 0
    transactions := s.transactionHistoryLength }

/-- Whether `Rx.throttleTime(10_000)` (leading edge, no trailing emission)
lets a value arriving at time `t` through, given the arrival time of the
last emitted value. -/
def shouldEval : Option Nat → Nat → Bool
  | none, _ => true
  | some last, t => decide (last + 10000 ≤ t)

/-- The subsequence of a timestamped stream that survives
`Rx.throttleTime(10_000)`: the first arrival is emitted, then every
arrival at least 10 000 ms after the last emitted one. -/
def throttleEval (last : Option Nat) : List (Nat × WalletState) → List (Nat × WalletState)
  | [] => []
  | (t, s) :: rest =>
      if shouldEval last t then (t, s) :: throttleEval (some t) rest
      else throttleEval last rest

/-- The composite resolution condition of the `waitForFunds` pipeline:
the snapshot is synced and its native-token balance (absent treated as
zero) is strictly positive. -/
def isFunded (ts : Nat × WalletState) : Bool :=
  syncedFlag ts.2 && decide (0 < nativeBalance ts.2)

/-- Operational model of
`firstValueFrom(state.pipe(throttleTime(10000), tap(log), filter(synced), map(balance ?? 0), filter(> 0)))`:
processes arrivals in order, throttling by arrival time, logging every
evaluated snapshot, and resolving with the first evaluated snapshot that
is synced with positive native balance; returns the emitted log entries
and the resolved balance (`none` when the stream is exhausted without
resolution, i.e. the real code would still be blocked). -/
def waitForFundsGo (last : Option Nat) : List (Nat × WalletState) → List FundsLogEntry × Option Nat
  | [] => ([], none)
  | (t, s) :: rest =>
      if shouldEval last t then
        let entry := logOf s
        if syncedFlag s then
          if 0 < nativeBalance s then ([entry], some (nativeBalance s))
          else
            let next := waitForFundsGo (some t) rest
            (entry :: next.1, next.2)
        else
          let next := waitForFundsGo (some t) rest
          (entry :: next.1, next.2)
      else waitForFundsGo last rest

/-- `TestWallet.waitForFunds` over a finite timestamped snapshot stream. -/
def waitForFunds (stream : List (Nat × WalletState)) : List FundsLogEntry × Option Nat :=
  waitForFundsGo none stream

/-- The prefix of a list up to and including its first element satisfying
`p` (the whole list when no element does): the snapshots a
first-match subscription actually processes. -/
def takeToFirst (p : α → Bool) : List α → List α
  | [] => []
  | a :: as => if p a then [a] else a :: takeToFirst p as

/-! ### Observable actions of the process, as an event trace -/

/-- One observable action of the process: console output, a structured
log line, the `setNetworkId` side effect, the `WalletBuilder.buildFromSeed`
call with its five string arguments in source order
(indexer, indexerWS, proofServer, node, seed), `wallet.start()`, or a
`wallet.close()` attempt. -/
inductive Event
  | stdout (line : String)
  | stderr (line : String)
  | logInfo (msg : String)
  | logError (msg : String)
  | logWarn (msg : String)
  | setNetworkId (nid : NetworkId)
  | walletBuild (indexer indexerWS proofServer node seed : String)
  | walletStart
  | closeAttempt
deriving DecidableEq, Repr

def isSetNetworkIdEvent : Event → Bool
  | Event.setNetworkId _ => true
  | _ => false

def isWalletBuildEvent : Event → Bool
  | Event.walletBuild _ _ _ _ _ => true
  | _ => false

def isCloseAttemptEvent : Event → Bool
  | Event.closeAttempt => true
  | _ => false

/-- The process-wide network identifier after a trace of events, starting
from `nid`: each `setNetworkId` event unconditionally overwrites it. -/
def applyEvents (nid : Option NetworkId) (tr : List Event) : Option NetworkId :=
  tr.foldl (fun acc e => match e with | Event.setNetworkId n => some n | _ => acc) nid

/-! ### `src/config.ts` -/

/-- `new StandaloneConfig()`: the four loopback endpoints, with the
constructor side effect `setNetworkId(NetworkId.Undeployed)`. -/
def mkStandaloneConfig : Config × List Event :=
  ({ indexer := "http://127.0.0.1:8088/api/v1/graphql"
     indexerWS := "ws://127.0.0.1:8088/api/v1/graphql/ws"
     node := "http://127.0.0.1:9944"
     proofServer := "http://127.0.0.1:6300" },
   [Event.setNetworkId NetworkId.Undeployed])

/-- `new TestnetRemoteConfig()`: remote indexer and node, loopback proof
server, with the constructor side effect `setNetworkId(NetworkId.TestNet)`. -/
def mkTestnetRemoteConfig : Config × List Event :=
  ({ indexer := "https://indexer.testnet-02.midnight.network/api/v1/graphql"
     indexerWS := "wss://indexer.testnet-02.midnight.network/api/v1/graphql/ws"
     node := "https://rpc.testnet-02.midnight.network"
     proofServer := "http://127.0.0.1:6300" },
   [Event.setNetworkId NetworkId.TestNet])

/-! ### `src/commons.ts` -/

def GENESIS_MINT_WALLET_SEED : String :=
  "0000000000000000000000000000000000000000000000000000000000000001"

/-- The `TestConfiguration` interface. -/
structure TestConfiguration where
  seed : String
  entrypoint : String
  dappConfig : Config
  psMode : String
deriving DecidableEq, Repr

/-- `new LocalTestConfig()`: its `dappConfig` field initializer constructs
a `StandaloneConfig`, so instantiation emits that constructor's
`setNetworkId` event. -/
def mkLocalTestConfig : TestConfiguration × List Event :=
  ({ seed := GENESIS_MINT_WALLET_SEED
     entrypoint := "dist/standalone.js"
     dappConfig := mkStandaloneConfig.1
     psMode := "undeployed" },
   mkStandaloneConfig.2)

/-- Lower-case hex digit of a value below 16. -/
def hexDigit (n : Nat) : Char :=
  if n < 10 then Char.ofNat (48 + n) else Char.ofNat (87 + n)

/-- Hex encoding of a byte sequence, two lower-case digits per byte,
as `toHex` of `@midnight-ntwrk/midnight-js-utils` applied to the
`Uint8Array` produced by `randomBytes` (each entry reduced mod 256). -/
def toHexChars : List Nat → List Char
  | [] => []
  | b :: bs => hexDigit (b % 256 / 16) :: hexDigit (b % 256 % 16) :: toHexChars bs

def toHex (bytes : List Nat) : String := String.mk (toHexChars bytes)

def isHexChar (c : Char) : Bool := "0123456789abcdef".toList.contains c

/-- Abstraction of `WalletBuilder.buildFromSeed` followed by
`wallet.start()` and `firstValueFrom(wallet.state())`: given the
configuration and the hex-encoded seed, either the first state snapshot
or the thrown error. The SDK's seed-to-state derivation being a
deterministic function is expressed by this being a function. -/
def SdkBuild : Type := Config → String → Except String WalletState

/-- The `WalletBuilder.buildFromSeed(indexer, indexerWS, proofServer,
node, seed, getZswapNetworkId(), 'warn')` call event. -/
def buildCallEvent (cfg : Config) (seed : String) : Event :=
  Event.walletBuild cfg.indexer cfg.indexerWS cfg.proofServer cfg.node seed

/-- Trace of the shared "build, start, read first state, log seed and
address" sequence on success. -/
def startupTrace (cfg : Config) (seed : String) (st : WalletState) : List Event :=
  [buildCallEvent cfg seed, Event.walletStart,
   Event.logInfo ("Wallet seed is: " ++ seed),
   Event.logInfo ("Wallet address is: " ++ st.address)]

/-- `TestWallet.buildFreshWallet`: hex-encode the freshly drawn random
bytes (a parameter of the model), build and start the wallet, read the
first snapshot, log seed, address and balance (absent treated as zero),
and return the seed with the snapshot; never waits for funds. -/
def buildFreshWallet (sdk : SdkBuild) (cfg : Config) (seedBytes : List Nat) :
    List Event × Except String (String × WalletState) :=
  let seed := toHex seedBytes
  match sdk cfg seed with
  | Except.error e => ([buildCallEvent cfg seed], Except.error e)
  | Except.ok st =>
      (startupTrace cfg seed st ++
        [Event.logInfo ("Wallet balance is: " ++ toString (nativeBalance st))],
       Except.ok (seed, st))

/-- `TestWallet.buildWalletFromSeed`: the same sequence with a
caller-supplied seed; returns only the first snapshot (the handle). -/
def buildWalletFromSeed (sdk : SdkBuild) (cfg : Config) (seed : String) :
    List Event × Except String WalletState :=
  match sdk cfg seed with
  | Except.error e => ([buildCallEvent cfg seed], Except.error e)
  | Except.ok st =>
      (startupTrace cfg seed st ++
        [Event.logInfo ("Wallet balance is: " ++ toString (nativeBalance st))],
       Except.ok st)

/-- The log line of one `Rx.tap` observation inside `waitForFunds`. -/
def waitLogLine (e : FundsLogEntry) : Event :=
  Event.logInfo ("Waiting for funds. Backend lag: " ++ toString e.sourceGap ++
    ", wallet lag: " ++ toString e.applyGap ++
    ", transactions=" ++ toString e.transactions)

/-- `TestWallet.buildWalletAndWaitForFunds`: the shared startup sequence,
then — exactly when the first snapshot's native balance is absent or
zero — the "balance 0 / waiting" logs and the fund-wait protocol over the
subsequent stream; the resulting balance is logged; the result is the
final balance (`none` when the wait never resolves on the given stream,
i.e. the real code is still blocked). -/
def buildWalletAndWaitForFunds (sdk : SdkBuild) (cfg : Config) (seed : String)
    (stream : List (Nat × WalletState)) : List Event × Except String (Option Nat) :=
  match sdk cfg seed with
  | Except.error e => ([buildCallEvent cfg seed], Except.error e)
  | Except.ok st =>
      if lookupBalance st nativeToken = none ∨ lookupBalance st nativeToken = some 0 then
        let w := waitForFunds stream
        match w.2 with
        | some bal =>
            (startupTrace cfg seed st ++
              [Event.logInfo "Wallet balance is: 0",
               Event.logInfo "Waiting to receive tokens..."] ++
              w.1.map waitLogLine ++
              [Event.logInfo ("Wallet balance is: " ++ toString bal)],
             Except.ok (some bal))
        | none =>
            (startupTrace cfg seed st ++
              [Event.logInfo "Wallet balance is: 0",
               Event.logInfo "Waiting to receive tokens..."] ++
              w.1.map waitLogLine,
             Except.ok none)
      else
        (startupTrace cfg seed st ++
          [Event.logInfo ("Wallet balance is: " ++ toString (nativeBalance st))],
         Except.ok (some (nativeBalance st)))

/-- `TestWallet.setup`: logs "Setting up wallet" and delegates to
`buildWalletAndWaitForFunds` with the configuration's `dappConfig` and
`seed`. -/
def setup (sdk : SdkBuild) (tc : TestConfiguration) (stream : List (Nat × WalletState)) :
    List Event × Except String (Option Nat) :=
  let r := buildWalletAndWaitForFunds sdk tc.dappConfig tc.seed stream
  (Event.logInfo "Setting up wallet" :: r.1, r.2)

/-! ### CLI entry point -/

inductive NetworkType
  | standalone
  | testnet
deriving DecidableEq, Repr

def networkName : NetworkType → String
  | NetworkType.standalone => "standalone"
  | NetworkType.testnet => "testnet"

/-- Outcome of `getNetworkFromArgs`: usage exit, invalid-value exit, or a
validated network type. -/
inductive ArgResult
  | usage
  | invalid (s : String)
  | ok (n : NetworkType)
deriving DecidableEq, Repr

/-- `getNetworkFromArgs`: a missing argument is a usage error; a value
other than `standalone` or `testnet` is invalid. -/
def getNetworkFromArgs : Option String → ArgResult
  | none => ArgResult.usage
  | some s =>
      if s = "standalone" then ArgResult.ok NetworkType.standalone
      else if s = "testnet" then ArgResult.ok NetworkType.testnet
      else ArgResult.invalid s

/-- The usage text printed (to standard output) when the argument is
missing. -/
def usageLines : List String :=
  ["Usage: yarn create-wallet <network>",
   "  network: standalone | testnet",
   "",
   "Examples:",
   "  yarn create-wallet standalone  # Create wallet for local development",
   "  yarn create-wallet testnet     # Create wallet for TestNet"]

/-- `getConfigForNetwork`: constructs the configuration for the validated
network (the constructor emits its `setNetworkId` event). -/
def getConfigForNetwork : NetworkType → Config × List Event
  | NetworkType.standalone => mkStandaloneConfig
  | NetworkType.testnet => mkTestnetRemoteConfig

/-- `'='.repeat(60)`. -/
def bannerSep : String := String.mk (List.replicate 60 '=')

/-- The success banner printed to standard output. -/
def bannerLines (network seed : String) : List String :=
  ["", bannerSep, "  NEW WALLET CREATED", bannerSep, "",
   "  Network: " ++ network,
   "  Seed: " ++ seed,
   "",
   "  ⚠️  IMPORTANT: Save your seed securely!",
   "  You will need it to restore your wallet.",
   "",
   bannerSep]

/-- Trace of the `finally` block when a wallet handle exists: one close
attempt, then either the success log or the caught-and-warned failure. -/
def closeTrace (closeOk : Bool) : List Event :=
  Event.closeAttempt ::
    (if closeOk then [Event.logInfo "Wallet closed"]
     else [Event.logWarn "Failed to close wallet cleanly"])

/-- Environment of one CLI execution: the argv network argument, the
random bytes drawn for the seed, the SDK build outcome and whether
`wallet.close()` succeeds. -/
structure Env where
  networkArg : Option String
  seedBytes : List Nat
  sdkBuild : SdkBuild
  closeOk : Bool

/-- Result of one CLI execution: its observable trace and exit code. -/
structure MainResult where
  trace : List Event
  exitCode : Nat

/-- The CLI `main`: parse the network argument (the usage and invalid
paths print and exit 1 before any wallet activity), select the
configuration (whose constructor sets the network id), log, build a
fresh wallet, print the banner on success or log the error and set exit
code 1, and finally attempt to close the wallet exactly when
construction returned a handle, a close failure being logged as a
warning without changing the exit code. -/
def mainRun (env : Env) : MainResult :=
  match getNetworkFromArgs env.networkArg with
  | ArgResult.usage => { trace := usageLines.map Event.stdout, exitCode := 1 }
  | ArgResult.invalid s =>
      { trace := [Event.stderr ("Invalid network: " ++ s),
                  Event.stderr "Valid options: standalone, testnet"]
        exitCode := 1 }
  | ArgResult.ok n =>
      let c := getConfigForNetwork n
      let build := buildFreshWallet env.sdkBuild c.1 env.seedBytes
      match build.2 with
      | Except.ok seedSt =>
          { trace := c.2 ++ [Event.logInfo "Creating new wallet"] ++ build.1 ++
              (bannerLines (networkName n) seedSt.1).map Event.stdout ++
              closeTrace env.closeOk
            exitCode := 0 }
      | Except.error _ =>
          { trace := c.2 ++ [Event.logInfo "Creating new wallet"] ++ build.1 ++
              [Event.logError "Error while creating wallet"]
            exitCode := 1 }

/-- Whether the execution described by `env` reaches a successfully
constructed wallet handle. -/
def walletConstructed (env : Env) : Bool :=
  match getNetworkFromArgs env.networkArg with
  | ArgResult.ok n =>
      match (buildFreshWallet env.sdkBuild (getConfigForNetwork n).1 env.seedBytes).2 with
      | Except.ok _ => true
      | Except.error _ => false
  | _ => false

/-! ### Concrete inputs used by counterexamples and witnesses -/

/-- An unsynced snapshot (no `syncProgress` yet). -/
def exUnsynced : WalletState :=
  { address := "addr", balances := [], syncProgress := none, transactionHistoryLength := 0 }

/-- A synced snapshot with native balance 5. -/
def exFunded5 : WalletState :=
  { address := "addr", balances := [(nativeToken, 5)]
    syncProgress := some { lag := { applyGap := 0, sourceGap := 0 }, synced := true }
    transactionHistoryLength := 1 }

/-- A synced snapshot with native balance 7. -/
def exFunded7 : WalletState :=
  { address := "addr", balances := [(nativeToken, 7)]
    syncProgress := some { lag := { applyGap := 0, sourceGap := 0 }, synced := true }
    transactionHistoryLength := 2 }

/-- A stream in which the first qualifying snapshot (balance 5, at
t = 5000 ms) arrives inside the 10-second throttle window opened by the
unsynced snapshot at t = 0, and a later qualifying snapshot (balance 7)
arrives after the window. -/
def exStream : List (Nat × WalletState) :=
  [(0, exUnsynced), (5000, exFunded5), (20000, exFunded7)]

/-- A first snapshot with positive native balance (9). -/
def wState : WalletState :=
  { address := "w-addr", balances := [(nativeToken, 9)]
    syncProgress := some { lag := { applyGap := 0, sourceGap := 0 }, synced := true }
    transactionHistoryLength := 0 }

/-- A first snapshot with no balances and no sync progress. -/
def wStateZero : WalletState :=
  { address := "w-addr", balances := [], syncProgress := none, transactionHistoryLength := 0 }

/-- An SDK whose build always yields `wState`. -/
def wSdk : SdkBuild := fun _ _ => Except.ok wState

/-- An SDK whose build always yields the zero-balance `wStateZero`. -/
def wSdkZero : SdkBuild := fun _ _ => Except.ok wStateZero

/-- A stream whose single snapshot is synced with balance 5. -/
def wStream : List (Nat × WalletState) := [(0, exFunded5)]

/-- A concrete CLI environment: `standalone` argument, 32 zero bytes of
randomness, an SDK that succeeds, a close that succeeds. -/
def wEnv : Env :=
  { networkArg := some "standalone", seedBytes := List.replicate 32 0
    sdkBuild := wSdk, closeOk := true }

/-! ### Fund-wait protocol lemmas -/

theorem waitForFundsGo_spec (stream : List (Nat × WalletState)) : ∀ last,
    waitForFundsGo last stream =
      ((takeToFirst isFunded (throttleEval last stream)).map (fun ts => logOf ts.2),
       ((throttleEval last stream).find? isFunded).map (fun ts => nativeBalance ts.2)) := by
  induction stream with
  | nil => intro last; rfl
  | cons hd tl ih =>
      intro last
      obtain ⟨t, s⟩ := hd
      cases he : shouldEval last t with
      | false =>
          simp only [waitForFundsGo, throttleEval, he, Bool.false_eq_true, if_false]
          exact ih last
      | true =>
          simp only [waitForFundsGo, throttleEval, he, if_true]
          cases hs : syncedFlag s with
          | false =>
              have hf : isFunded (t, s) = false := by
                simp [isFunded, hs]
              simp [takeToFirst, List.find?, hf, ih (some t)]
          | true =>
              by_cases hb : 0 < nativeBalance s
              · have hf : isFunded (t, s) = true := by
                  simp [isFunded, hs, hb]
                simp [takeToFirst, List.find?, hf, hb]
              · have hf : isFunded (t, s) = false := by
                  simp [isFunded, hs, hb]
                simp [takeToFirst, List.find?, hf, hb, ih (some t)]

theorem throttleEval_head (stream : List (Nat × WalletState)) :
    ∀ last e, (throttleEval last stream).head? = some e → shouldEval last e.1 = true := by
  induction stream with
  | nil => intro last e h; simp [throttleEval] at h
  | cons hd tl ih =>
      intro last e h
      obtain ⟨t, s⟩ := hd
      cases he : shouldEval last t with
      | true =>
          simp only [throttleEval, he, if_true, List.head?_cons, Option.some.injEq] at h
          rw [← h]
          exact he
      | false =>
          simp only [throttleEval, he, Bool.false_eq_true, if_false] at h
          exact ih last e h

theorem throttleEval_chain (stream : List (Nat × WalletState)) :
    ∀ last, List.Chain' (fun a b => a.1 + 10000 ≤ b.1) (throttleEval last stream) := by
  induction stream with
  | nil => intro last; simp [throttleEval]
  | cons hd tl ih =>
      intro last
      obtain ⟨t, s⟩ := hd
      cases he : shouldEval last t with
      | false => simpa [throttleEval, he] using ih last
      | true =>
          simp only [throttleEval, he, if_true]
          rw [List.chain'_cons']
          refine ⟨?_, ih (some t)⟩
          intro y hy
          have := throttleEval_head tl (some t) y hy
          simpa [shouldEval] using this

theorem throttleEval_sublist (stream : List (Nat × WalletState)) :
    ∀ last e, e ∈ throttleEval last stream → e ∈ stream := by
  induction stream with
  | nil => intro last e h; simp [throttleEval] at h
  | cons hd tl ih =>
      intro last e h
      obtain ⟨t, s⟩ := hd
      cases he : shouldEval last t with
      | true =>
          simp only [throttleEval, he, if_true, List.mem_cons] at h
          rcases h with h | h
          · exact List.mem_cons.mpr (Or.inl h)
          · exact List.mem_cons.mpr (Or.inr (ih (some t) e h))
      | false =>
          simp only [throttleEval, he, Bool.false_eq_true, if_false] at h
          exact List.mem_cons.mpr (Or.inr (ih last e h))

/-! ### Claim theorems -/

/-- C1 (counterexample): the claim as stated — that the resolved value is
the native-token balance of the first snapshot of the stream satisfying
`synced == true ∧ balance > 0` — is false: on `exStream` the pipeline
resolves with 7 (the throttle at the head of the pipeline drops the
qualifying balance-5 snapshot arriving at 5000 ms), while the first
qualifying snapshot of the stream has balance 5. -/
theorem waitForFunds_not_first_qualifying_of_stream :
    ¬ ((waitForFunds exStream).2 =
        (exStream.find? isFunded).map (fun ts => nativeBalance ts.2)) := by
  decide

/-- C1 (amended): `waitForFunds` resolves with exactly the native-token
balance (absent entry treated as zero) of the first throttle-evaluated
snapshot satisfying `synced == true ∧ balance > 0`, and the subscription
processes exactly the evaluated snapshots up to and including that one;
evaluated snapshots that are unsynced, or synced with zero or absent
balance, never trigger resolution (they are not matched by `find?`), and
snapshots dropped by the 10-second throttle are never evaluated. -/
theorem waitForFunds_first_evaluated_qualifying (stream : List (Nat × WalletState)) :
    waitForFunds stream =
      ((takeToFirst isFunded (throttleEval none stream)).map (fun ts => logOf ts.2),
       ((throttleEval none stream).find? isFunded).map (fun ts => nativeBalance ts.2)) :=
  waitForFundsGo_spec stream none

/-- C7: throttling and observation of the fund-wait protocol. Any two
consecutively evaluated snapshots are at least 10 000 ms apart (at most
one evaluation per 10-second window), every evaluated snapshot comes from
the stream, the log entries emitted are exactly one per snapshot evaluated
before (and including) resolution — each holding the snapshot's source
gap, apply gap and transaction count — and a snapshot without sync
progress is logged with both gaps defaulted to zero. -/
theorem waitForFunds_throttle_and_logging (stream : List (Nat × WalletState)) :
    List.Chain' (fun a b => a.1 + 10000 ≤ b.1) (throttleEval none stream) ∧
    (∀ e ∈ throttleEval none stream, e ∈ stream) ∧
    (waitForFunds stream).1 =
      (takeToFirst isFunded (throttleEval none stream)).map (fun ts => logOf ts.2) ∧
    (∀ s : WalletState, s.syncProgress = none →
      logOf s = { sourceGap := 0, applyGap := 0, transactions := s.transactionHistoryLength }) := by
  refine ⟨throttleEval_chain stream none, throttleEval_sublist stream none, ?_, ?_⟩
  · rw [waitForFunds, waitForFundsGo_spec stream none]
  · intro s hs
    simp [logOf, hs]

/-- Closed witness for the C7 theorem: at the concrete stream `exStream`,
the evaluated snapshot `(0, exUnsynced)` indeed comes from the stream, and
its missing sync progress is logged with gaps defaulted to zero. -/
theorem waitForFunds_throttle_and_logging_witness :
    (0, exUnsynced) ∈ exStream ∧
    logOf exUnsynced =
      { sourceGap := 0, applyGap := 0, transactions := exUnsynced.transactionHistoryLength } :=
  ⟨(waitForFunds_throttle_and_logging exStream).2.1 (0, exUnsynced) (by decide),
   (waitForFunds_throttle_and_logging exStream).2.2.2 exUnsynced rfl⟩

/-! ### Trace counting lemmas -/

theorem countP_map_stdout (p : Event → Bool) (h : ∀ s, p (Event.stdout s) = false)
    (l : List String) : (l.map Event.stdout).countP p = 0 := by
  induction l with
  | nil => rfl
  | cons a as ih => simp [List.countP_cons, h, ih]

theorem buildFresh_countP (p : Event → Bool)
    (hb : ∀ a b c d e, p (Event.walletBuild a b c d e) = false)
    (hs : p Event.walletStart = false)
    (hi : ∀ m, p (Event.logInfo m) = false)
    (sdk : SdkBuild) (cfg : Config) (bytes : List Nat) :
    ((buildFreshWallet sdk cfg bytes).1).countP p = 0 := by
  cases h : sdk cfg (toHex bytes) <;>
    simp [buildFreshWallet, h, startupTrace, buildCallEvent, List.countP_cons,
      List.countP_append, hb, hs, hi]

theorem closeTrace_countP (p : Event → Bool)
    (hc : p Event.closeAttempt = false)
    (hi : ∀ m, p (Event.logInfo m) = false)
    (hw : ∀ m, p (Event.logWarn m) = false)
    (b : Bool) : (closeTrace b).countP p = 0 := by
  cases b <;> simp [closeTrace, List.countP_cons, hc, hi, hw]

theorem closeTrace_countP_close (b : Bool) :
    (closeTrace b).countP isCloseAttemptEvent = 1 := by
  cases b <;> simp [closeTrace, List.countP_cons, isCloseAttemptEvent]

theorem config_countP_set (n : NetworkType) :
    ((getConfigForNetwork n).2).countP isSetNetworkIdEvent = 1 := by
  cases n <;> rfl

theorem config_countP_close (n : NetworkType) :
    ((getConfigForNetwork n).2).countP isCloseAttemptEvent = 0 := by
  cases n <;> rfl

/-! ### More claim theorems -/

/-- C9: every configuration construction unconditionally overwrites the
process-wide network identifier, whatever its prior value; constructing a
second variant in the same process re-points the identifier to the
last-constructed variant (in either order), and instantiating
`LocalTestConfig` itself performs a `StandaloneConfig` construction and
hence sets the identifier to `Undeployed`; consequently "initialized once
and never reset" can hold only when at most one configuration is
constructed per process. -/
theorem config_constructor_overwrites_network_id :
    (∀ prior : Option NetworkId,
        applyEvents prior mkStandaloneConfig.2 = some NetworkId.Undeployed) ∧
    (∀ prior : Option NetworkId,
        applyEvents prior mkTestnetRemoteConfig.2 = some NetworkId.TestNet) ∧
    applyEvents (applyEvents none mkStandaloneConfig.2) mkTestnetRemoteConfig.2 =
      some NetworkId.TestNet ∧
    applyEvents (applyEvents none mkTestnetRemoteConfig.2) mkStandaloneConfig.2 =
      some NetworkId.Undeployed ∧
    mkLocalTestConfig.2 = [Event.setNetworkId NetworkId.Undeployed] :=
  ⟨fun _ => rfl, fun _ => rfl, rfl, rfl, rfl⟩

/-- C2: for every execution whose network argument names variant `n`,
`getConfigForNetwork` deterministically yields the variant's fixed four
endpoint strings (standalone: all loopback; testnet: remote indexer and
node, loopback proof server), and the very first event of the run is the
matching `setNetworkId` — the only `setNetworkId` of the whole run — so
the process-wide identifier is set to the matching variant before any
wallet construction call. -/
theorem config_selection_and_network_id (env : Env) (n : NetworkType)
    (harg : env.networkArg = some (networkName n)) :
    (n = NetworkType.standalone →
      (getConfigForNetwork n).1 =
        { indexer := "http://127.0.0.1:8088/api/v1/graphql"
          indexerWS := "ws://127.0.0.1:8088/api/v1/graphql/ws"
          node := "http://127.0.0.1:9944"
          proofServer := "http://127.0.0.1:6300" } ∧
      (mainRun env).trace.head? = some (Event.setNetworkId NetworkId.Undeployed)) ∧
    (n = NetworkType.testnet →
      (getConfigForNetwork n).1 =
        { indexer := "https://indexer.testnet-02.midnight.network/api/v1/graphql"
          indexerWS := "wss://indexer.testnet-02.midnight.network/api/v1/graphql/ws"
          node := "https://rpc.testnet-02.midnight.network"
          proofServer := "http://127.0.0.1:6300" } ∧
      (mainRun env).trace.head? = some (Event.setNetworkId NetworkId.TestNet)) ∧
    (mainRun env).trace.countP isSetNetworkIdEvent = 1 := by
  have hset : ∀ m : String, isSetNetworkIdEvent (Event.logInfo m) = false := fun _ => rfl
  have hstd : ∀ s : String, isSetNetworkIdEvent (Event.stdout s) = false := fun _ => rfl
  have herr : ∀ m : String, isSetNetworkIdEvent (Event.logError m) = false := fun _ => rfl
  cases n with
  | standalone =>
      have hmain : (mainRun env).trace =
          mkStandaloneConfig.2 ++ [Event.logInfo "Creating new wallet"] ++
            (buildFreshWallet env.sdkBuild mkStandaloneConfig.1 env.seedBytes).1 ++
            (match (buildFreshWallet env.sdkBuild mkStandaloneConfig.1 env.seedBytes).2 with
             | Except.ok seedSt =>
                (bannerLines (networkName NetworkType.standalone) seedSt.1).map Event.stdout ++
                  closeTrace env.closeOk
             | Except.error _ => [Event.logError "Error while creating wallet"]) := by
        cases hb : (buildFreshWallet env.sdkBuild mkStandaloneConfig.1 env.seedBytes).2 <;>
          simp [mainRun, harg, networkName, getNetworkFromArgs, getConfigForNetwork, hb]
      refine ⟨fun _ => ⟨rfl, ?_⟩, ?_, ?_⟩
      · rw [hmain]; rfl
      · intro h; exact absurd h (by decide)
      · rw [hmain]
        cases hb : (buildFreshWallet env.sdkBuild mkStandaloneConfig.1 env.seedBytes).2 <;>
          simp [List.countP_append, List.countP_cons,
            buildFresh_countP isSetNetworkIdEvent (fun _ _ _ _ _ => rfl) rfl hset,
            countP_map_stdout isSetNetworkIdEvent hstd,
            closeTrace_countP isSetNetworkIdEvent rfl hset (fun _ => rfl),
            mkStandaloneConfig, isSetNetworkIdEvent, herr, hset]
  | testnet =>
      have hmain : (mainRun env).trace =
          mkTestnetRemoteConfig.2 ++ [Event.logInfo "Creating new wallet"] ++
            (buildFreshWallet env.sdkBuild mkTestnetRemoteConfig.1 env.seedBytes).1 ++
            (match (buildFreshWallet env.sdkBuild mkTestnetRemoteConfig.1 env.seedBytes).2 with
             | Except.ok seedSt =>
                (bannerLines (networkName NetworkType.testnet) seedSt.1).map Event.stdout ++
                  closeTrace env.closeOk
             | Except.error _ => [Event.logError "Error while creating wallet"]) := by
        cases hb : (buildFreshWallet env.sdkBuild mkTestnetRemoteConfig.1 env.seedBytes).2 <;>
          simp [mainRun, harg, networkName, getNetworkFromArgs, getConfigForNetwork, hb]
      refine ⟨?_, fun _ => ⟨rfl, ?_⟩, ?_⟩
      · intro h; exact absurd h (by decide)
      · rw [hmain]; rfl
      · rw [hmain]
        cases hb : (buildFreshWallet env.sdkBuild mkTestnetRemoteConfig.1 env.seedBytes).2 <;>
          simp [List.countP_append, List.countP_cons,
            buildFresh_countP isSetNetworkIdEvent (fun _ _ _ _ _ => rfl) rfl hset,
            countP_map_stdout isSetNetworkIdEvent hstd,
            closeTrace_countP isSetNetworkIdEvent rfl hset (fun _ => rfl),
            mkTestnetRemoteConfig, isSetNetworkIdEvent, herr, hset]

/-- Closed witness for the C2 theorem at the concrete environment `wEnv`
(argument `standalone`). -/
theorem config_selection_and_network_id_witness :
    (mainRun wEnv).trace.head? = some (Event.setNetworkId NetworkId.Undeployed) ∧
    (mainRun wEnv).trace.countP isSetNetworkIdEvent = 1 :=
  ⟨((config_selection_and_network_id wEnv NetworkType.standalone rfl).1 rfl).2,
   (config_selection_and_network_id wEnv NetworkType.standalone rfl).2.2⟩

/-- C5: a missing network argument makes the process print the usage text
to standard output and exit with status 1; an argument outside
{standalone, testnet} makes it print an error naming the invalid value to
standard error and exit with status 1; in both cases the trace contains
no `WalletBuilder.buildFromSeed` call, i.e. no wallet is ever
constructed. -/
theorem invalid_args_exit_without_wallet (env : Env) :
    (env.networkArg = none →
      (mainRun env).exitCode = 1 ∧
      (mainRun env).trace = usageLines.map Event.stdout ∧
      (mainRun env).trace.countP isWalletBuildEvent = 0) ∧
    (∀ s, env.networkArg = some s → s ≠ "standalone" → s ≠ "testnet" →
      (mainRun env).exitCode = 1 ∧
      (mainRun env).trace =
        [Event.stderr ("Invalid network: " ++ s),
         Event.stderr "Valid options: standalone, testnet"] ∧
      (mainRun env).trace.countP isWalletBuildEvent = 0) := by
  constructor
  · intro h
    refine ⟨?_, ?_, ?_⟩ <;>
      simp [mainRun, h, getNetworkFromArgs, usageLines, List.countP_cons, isWalletBuildEvent]
  · intro s hs h1 h2
    refine ⟨?_, ?_, ?_⟩ <;>
      simp [mainRun, hs, getNetworkFromArgs, h1, h2, List.countP_cons, isWalletBuildEvent]

/-- A CLI environment with no network argument. -/
def wEnvNoArg : Env :=
  { networkArg := none, seedBytes := [], sdkBuild := wSdk, closeOk := true }

/-- A CLI environment invoked with the invalid network `mainnet`. -/
def wEnvBadArg : Env :=
  { networkArg := some "mainnet", seedBytes := [], sdkBuild := wSdk, closeOk := true }

/-- Closed witness for the C5 theorem: the missing-argument and
`mainnet` environments both exit 1 without a wallet build call. -/
theorem invalid_args_exit_without_wallet_witness :
    (mainRun wEnvNoArg).exitCode = 1 ∧
    (mainRun wEnvBadArg).exitCode = 1 ∧
    (mainRun wEnvBadArg).trace.countP isWalletBuildEvent = 0 ∧
    Event.stderr "Invalid network: mainnet" ∈ (mainRun wEnvBadArg).trace :=
  ⟨((invalid_args_exit_without_wallet wEnvNoArg).1 rfl).1,
   ((invalid_args_exit_without_wallet wEnvBadArg).2 "mainnet" rfl
      (by decide) (by decide)).1,
   ((invalid_args_exit_without_wallet wEnvBadArg).2 "mainnet" rfl
      (by decide) (by decide)).2.2,
   by
     rw [((invalid_args_exit_without_wallet wEnvBadArg).2 "mainnet" rfl
        (by decide) (by decide)).2.1]
     decide⟩

/-- C3: in every CLI execution, the number of close attempts on the
wallet handle is 1 exactly when wallet construction returned a handle and
0 otherwise (in particular 0 when construction threw); the exit status is
the same whether the close succeeds or fails; and a failing close is
logged as a warning. -/
theorem cleanup_close_exactly_once (env : Env) :
    (mainRun env).trace.countP isCloseAttemptEvent =
      (if walletConstructed env then 1 else 0) ∧
    (mainRun { env with closeOk := true }).exitCode =
      (mainRun { env with closeOk := false }).exitCode ∧
    (walletConstructed env = true → env.closeOk = false →
      Event.logWarn "Failed to close wallet cleanly" ∈ (mainRun env).trace) := by
  have hinfo : ∀ m : String, isCloseAttemptEvent (Event.logInfo m) = false := fun _ => rfl
  have hstd : ∀ s : String, isCloseAttemptEvent (Event.stdout s) = false := fun _ => rfl
  have hbuild0 := buildFresh_countP isCloseAttemptEvent (fun _ _ _ _ _ => rfl) rfl hinfo
  cases harg : getNetworkFromArgs env.networkArg with
  | usage =>
      refine ⟨?_, ?_, ?_⟩
      · simp [mainRun, walletConstructed, harg]; decide
      · simp [mainRun, harg]
      · simp [walletConstructed, harg]
  | invalid s =>
      refine ⟨?_, ?_, ?_⟩
      · simp [mainRun, walletConstructed, harg, List.countP_cons, isCloseAttemptEvent]
      · simp [mainRun, harg]
      · simp [walletConstructed, harg]
  | ok n =>
      cases hb : (buildFreshWallet env.sdkBuild (getConfigForNetwork n).1 env.seedBytes).2 with
      | error e =>
          refine ⟨?_, ?_, ?_⟩
          · simp [mainRun, walletConstructed, harg, hb, List.countP_append,
              List.countP_cons, hbuild0, config_countP_close n, isCloseAttemptEvent]
          · simp [mainRun, harg, hb]
          · simp [walletConstructed, harg, hb]
      | ok seedSt =>
          refine ⟨?_, ?_, ?_⟩
          · simp [mainRun, walletConstructed, harg, hb, List.countP_append,
              List.countP_cons, hbuild0, config_countP_close n,
              countP_map_stdout isCloseAttemptEvent hstd, closeTrace_countP_close,
              isCloseAttemptEvent]
          · simp [mainRun, harg, hb]
          · intro _ hclose
            simp [mainRun, harg, hb, closeTrace, hclose]

/-- A CLI environment whose wallet build throws. -/
def wEnvBuildFails : Env :=
  { networkArg := some "testnet", seedBytes := List.replicate 32 0
    sdkBuild := fun _ _ => Except.error "connect ECONNREFUSED", closeOk := true }

/-- A CLI environment whose wallet close fails. -/
def wEnvCloseFails : Env :=
  { networkArg := some "standalone", seedBytes := List.replicate 32 0
    sdkBuild := wSdk, closeOk := false }

/-- Closed witness for the C3 theorem: one close attempt when the build
succeeded (even when close then fails, with the warning logged), zero
close attempts when the build threw. -/
theorem cleanup_close_exactly_once_witness :
    (mainRun wEnvCloseFails).trace.countP isCloseAttemptEvent = 1 ∧
    Event.logWarn "Failed to close wallet cleanly" ∈ (mainRun wEnvCloseFails).trace ∧
    (mainRun wEnvBuildFails).trace.countP isCloseAttemptEvent = 0 :=
  ⟨by
     have h := (cleanup_close_exactly_once wEnvCloseFails).1
     rwa [if_pos (by decide)] at h,
   (cleanup_close_exactly_once wEnvCloseFails).2.2 (by decide) rfl,
   by
     have h := (cleanup_close_exactly_once wEnvBuildFails).1
     rwa [if_neg (by decide)] at h⟩

/-! ### Balance and hex lemmas -/

theorem nativeBalance_eq_zero_iff (st : WalletState) :
    nativeBalance st = 0 ↔
      (lookupBalance st nativeToken = none ∨ lookupBalance st nativeToken = some 0) := by
  cases h : lookupBalance st nativeToken <;> simp [nativeBalance, h]

theorem waitForFunds_pos (stream : List (Nat × WalletState)) (bal : Nat)
    (h : (waitForFunds stream).2 = some bal) : 0 < bal := by
  rw [waitForFunds, waitForFundsGo_spec stream none] at h
  simp only [Option.map_eq_some'] at h
  obtain ⟨ts, hfind, hbal⟩ := h
  have hp := List.find?_some hfind
  simp only [isFunded, Bool.and_eq_true, decide_eq_true_eq] at hp
  exact hbal ▸ hp.2

theorem buildWait_result_pos (sdk : SdkBuild) (cfg : Config) (seed : String)
    (stream : List (Nat × WalletState)) (v : Nat)
    (h : (buildWalletAndWaitForFunds sdk cfg seed stream).2 = Except.ok (some v)) :
    0 < v := by
  rcases hb : sdk cfg seed with e | st
  · simp [buildWalletAndWaitForFunds, hb] at h
  · by_cases hz : lookupBalance st nativeToken = none ∨ lookupBalance st nativeToken = some 0
    · rcases hw : (waitForFunds stream).2 with _ | bal
      · simp [buildWalletAndWaitForFunds, hb, hz, hw] at h
      · simp [buildWalletAndWaitForFunds, hb, hz, hw] at h
        have := waitForFunds_pos stream bal hw
        omega
    · simp [buildWalletAndWaitForFunds, hb, hz] at h
      have : ¬ nativeBalance st = 0 := fun hc => hz ((nativeBalance_eq_zero_iff st).mp hc)
      omega

theorem toHexChars_length (bytes : List Nat) :
    (toHexChars bytes).length = 2 * bytes.length := by
  induction bytes with
  | nil => rfl
  | cons b bs ih => simp [toHexChars, ih]; ring

theorem hexDigit_isHexChar : ∀ n, n < 16 → isHexChar (hexDigit n) = true := by decide

theorem toHexChars_hex (bytes : List Nat) :
    (toHexChars bytes).all isHexChar = true := by
  induction bytes with
  | nil => rfl
  | cons b bs ih =>
      simp only [toHexChars, List.all_cons, ih, Bool.and_true]
      rw [hexDigit_isHexChar (b % 256 / 16) (by omega),
        hexDigit_isHexChar (b % 256 % 16) (by omega)]
      rfl

/-! ### Remaining claim theorems -/

/-- C4: given a successful construction-and-start (first snapshot `st`),
`buildWalletAndWaitForFunds` invokes the fund-wait protocol exactly when
the first observed native-token balance is zero or absent: when it is
positive, the run is the plain startup trace ending with the balance log
(no waiting); when it is zero, the "Waiting to receive tokens..." log is
emitted and the result is the fund-wait resolution; and every returned
balance is strictly positive and is logged. -/
theorem buildAndWait_spec (sdk : SdkBuild) (cfg : Config) (seed : String)
    (stream : List (Nat × WalletState)) (st : WalletState)
    (hb : sdk cfg seed = Except.ok st) :
    (0 < nativeBalance st →
      buildWalletAndWaitForFunds sdk cfg seed stream =
        (startupTrace cfg seed st ++
          [Event.logInfo ("Wallet balance is: " ++ toString (nativeBalance st))],
         Except.ok (some (nativeBalance st)))) ∧
    (nativeBalance st = 0 →
      Event.logInfo "Waiting to receive tokens..." ∈
        (buildWalletAndWaitForFunds sdk cfg seed stream).1 ∧
      (buildWalletAndWaitForFunds sdk cfg seed stream).2 =
        Except.ok (waitForFunds stream).2) ∧
    (∀ v, (buildWalletAndWaitForFunds sdk cfg seed stream).2 = Except.ok (some v) →
      0 < v ∧
      Event.logInfo ("Wallet balance is: " ++ toString v) ∈
        (buildWalletAndWaitForFunds sdk cfg seed stream).1) := by
  refine ⟨?_, ?_, ?_⟩
  · intro hpos
    have hz : ¬ (lookupBalance st nativeToken = none ∨ lookupBalance st nativeToken = some 0) := by
      rw [← nativeBalance_eq_zero_iff]
      omega
    simp [buildWalletAndWaitForFunds, hb, hz]
  · intro hzero
    have hz : lookupBalance st nativeToken = none ∨ lookupBalance st nativeToken = some 0 :=
      (nativeBalance_eq_zero_iff st).mp hzero
    rcases hw : (waitForFunds stream).2 with _ | bal <;>
      simp [buildWalletAndWaitForFunds, hb, hz, hw]
  · intro v hv
    refine ⟨buildWait_result_pos sdk cfg seed stream v hv, ?_⟩
    by_cases hz : lookupBalance st nativeToken = none ∨ lookupBalance st nativeToken = some 0
    · rcases hw : (waitForFunds stream).2 with _ | bal <;>
        simp [buildWalletAndWaitForFunds, hb, hz, hw] at hv ⊢
      subst hv
      simp
    · simp [buildWalletAndWaitForFunds, hb, hz] at hv ⊢
      subst hv
      simp

/-- Closed witness for the C4 theorem: an SDK whose first snapshot has no
balances makes the run wait, and the fund-wait result (balance 5 on
`wStream`) is returned. -/
theorem buildAndWait_spec_witness :
    Event.logInfo "Waiting to receive tokens..." ∈
      (buildWalletAndWaitForFunds wSdkZero mkStandaloneConfig.1 GENESIS_MINT_WALLET_SEED wStream).1 ∧
    (buildWalletAndWaitForFunds wSdkZero mkStandaloneConfig.1 GENESIS_MINT_WALLET_SEED wStream).2 =
      Except.ok (some 5) :=
  ⟨((buildAndWait_spec wSdkZero mkStandaloneConfig.1 GENESIS_MINT_WALLET_SEED wStream
      wStateZero rfl).2.1 rfl).1,
   by
     rw [((buildAndWait_spec wSdkZero mkStandaloneConfig.1 GENESIS_MINT_WALLET_SEED wStream
        wStateZero rfl).2.1 rfl).2]
     rfl⟩

/-- C6: on a valid network argument and a successful SDK build, the fresh
seed is the hex encoding of the 32 random bytes (64 lower-case hex
characters), `buildFreshWallet`'s run is exactly the startup trace bound
to the selected configuration's four endpoints and that seed followed by
the balance log (no waiting, whatever the first balance), the handle is
returned together with the seed, the CLI banner contains the network name
and the seed, and the exit code is 0. -/
theorem fresh_wallet_success (env : Env) (n : NetworkType) (st : WalletState)
    (harg : env.networkArg = some (networkName n))
    (hb : env.sdkBuild (getConfigForNetwork n).1 (toHex env.seedBytes) = Except.ok st)
    (hlen : env.seedBytes.length = 32) :
    (toHex env.seedBytes).length = 64 ∧
    (toHex env.seedBytes).toList.all isHexChar = true ∧
    buildFreshWallet env.sdkBuild (getConfigForNetwork n).1 env.seedBytes =
      (startupTrace (getConfigForNetwork n).1 (toHex env.seedBytes) st ++
        [Event.logInfo ("Wallet balance is: " ++ toString (nativeBalance st))],
       Except.ok (toHex env.seedBytes, st)) ∧
    Event.stdout ("  Network: " ++ networkName n) ∈ (mainRun env).trace ∧
    Event.stdout ("  Seed: " ++ toHex env.seedBytes) ∈ (mainRun env).trace ∧
    (mainRun env).exitCode = 0 := by
  have hfresh : buildFreshWallet env.sdkBuild (getConfigForNetwork n).1 env.seedBytes =
      (startupTrace (getConfigForNetwork n).1 (toHex env.seedBytes) st ++
        [Event.logInfo ("Wallet balance is: " ++ toString (nativeBalance st))],
       Except.ok (toHex env.seedBytes, st)) := by
    simp [buildFreshWallet, hb]
  have hargres : getNetworkFromArgs env.networkArg = ArgResult.ok n := by
    cases n <;> simp [harg, networkName, getNetworkFromArgs]
  have hmain : mainRun env =
      { trace := (getConfigForNetwork n).2 ++ [Event.logInfo "Creating new wallet"] ++
          (startupTrace (getConfigForNetwork n).1 (toHex env.seedBytes) st ++
            [Event.logInfo ("Wallet balance is: " ++ toString (nativeBalance st))]) ++
          (bannerLines (networkName n) (toHex env.seedBytes)).map Event.stdout ++
          closeTrace env.closeOk
        exitCode := 0 } := by
    simp [mainRun, hargres, hfresh]
  refine ⟨?_, ?_, hfresh, ?_, ?_, ?_⟩
  · show (toHexChars env.seedBytes).length = 64
    rw [toHexChars_length, hlen]
  · exact toHexChars_hex env.seedBytes
  · rw [hmain]
    simp [bannerLines, List.mem_append]
  · rw [hmain]
    simp [bannerLines, List.mem_append]
  · rw [hmain]

/-- Closed witness for the C6 theorem at `wEnv` (32 zero random bytes,
`standalone`, an SDK yielding the snapshot `wState`). -/
theorem fresh_wallet_success_witness :
    (toHex wEnv.seedBytes).length = 64 ∧
    (mainRun wEnv).exitCode = 0 ∧
    Event.stdout ("  Seed: " ++ toHex wEnv.seedBytes) ∈ (mainRun wEnv).trace :=
  ⟨(fresh_wallet_success wEnv NetworkType.standalone wState rfl rfl rfl).1,
   (fresh_wallet_success wEnv NetworkType.standalone wState rfl rfl rfl).2.2.2.2.2,
   (fresh_wallet_success wEnv NetworkType.standalone wState rfl rfl rfl).2.2.2.2.1⟩

/-- C8: when a fresh build with random bytes yields seed `seed` and first
snapshot `st`, rebuilding later with `buildWalletFromSeed` on the same
configuration and that seed yields the same first snapshot — in
particular both builds log the same wallet address (the SDK's
deterministic seed-to-state derivation is the function `sdk`). -/
theorem same_seed_same_address (sdk : SdkBuild) (cfg : Config) (seedBytes : List Nat)
    (seed : String) (st : WalletState)
    (h : (buildFreshWallet sdk cfg seedBytes).2 = Except.ok (seed, st)) :
    (buildWalletFromSeed sdk cfg seed).2 = Except.ok st ∧
    Event.logInfo ("Wallet address is: " ++ st.address) ∈ (buildFreshWallet sdk cfg seedBytes).1 ∧
    Event.logInfo ("Wallet address is: " ++ st.address) ∈ (buildWalletFromSeed sdk cfg seed).1 := by
  rcases hs : sdk cfg (toHex seedBytes) with e | st'
  · simp [buildFreshWallet, hs] at h
  · simp only [buildFreshWallet, hs, Except.ok.injEq, Prod.mk.injEq] at h
    obtain ⟨hseed, hst⟩ := h
    subst hseed hst
    refine ⟨?_, ?_, ?_⟩ <;>
      simp [buildWalletFromSeed, buildFreshWallet, hs, startupTrace]

/-- Closed witness for the C8 theorem: rebuilding from the seed produced
by the fresh build against `wSdk` yields the same snapshot `wState`. -/
theorem same_seed_same_address_witness :
    (buildWalletFromSeed wSdk mkStandaloneConfig.1 (toHex (List.replicate 32 0))).2 =
      Except.ok wState ∧
    Event.logInfo ("Wallet address is: " ++ wState.address) ∈
      (buildWalletFromSeed wSdk mkStandaloneConfig.1 (toHex (List.replicate 32 0))).1 :=
  ⟨(same_seed_same_address wSdk mkStandaloneConfig.1 (List.replicate 32 0)
      (toHex (List.replicate 32 0)) wState rfl).1,
   (same_seed_same_address wSdk mkStandaloneConfig.1 (List.replicate 32 0)
      (toHex (List.replicate 32 0)) wState rfl).2.2⟩

/-- C10: `TestWallet.setup` prepends its "Setting up wallet" log and
delegates to the fund-waiting path `buildWalletAndWaitForFunds` with the
configuration's fixed seed and dapp config; for `LocalTestConfig` that
seed is the well-known genesis seed `GENESIS_MINT_WALLET_SEED` (64 hex
characters: 63 zeros then a final 1) and the config is the standalone
one, and any balance `setup` returns is strictly positive (it blocks
until funded). -/
theorem setup_genesis_standalone (sdk : SdkBuild) (stream : List (Nat × WalletState)) :
    mkLocalTestConfig.1.seed = GENESIS_MINT_WALLET_SEED ∧
    GENESIS_MINT_WALLET_SEED.length = 64 ∧
    GENESIS_MINT_WALLET_SEED.toList = List.replicate 63 '0' ++ ['1'] ∧
    mkLocalTestConfig.1.dappConfig = mkStandaloneConfig.1 ∧
    setup sdk mkLocalTestConfig.1 stream =
      (Event.logInfo "Setting up wallet" ::
        (buildWalletAndWaitForFunds sdk mkStandaloneConfig.1 GENESIS_MINT_WALLET_SEED stream).1,
       (buildWalletAndWaitForFunds sdk mkStandaloneConfig.1 GENESIS_MINT_WALLET_SEED stream).2) ∧
    (∀ v, (setup sdk mkLocalTestConfig.1 stream).2 = Except.ok (some v) → 0 < v) := by
  refine ⟨rfl, by decide, by decide, rfl, rfl, ?_⟩
  intro v hv
  exact buildWait_result_pos sdk mkStandaloneConfig.1 GENESIS_MINT_WALLET_SEED stream v hv

/-- Closed witness for the C10 theorem: with the zero-balance SDK and the
funded stream `wStream`, `setup` returns balance 5, which is positive. -/
theorem setup_genesis_standalone_witness :
    (setup wSdkZero mkLocalTestConfig.1 wStream).2 = Except.ok (some 5) ∧ 0 < 5 :=
  ⟨rfl,
   (setup_genesis_standalone wSdkZero wStream).2.2.2.2.2 5 rfl⟩

end MidnightLocal
